import Mathlib

/-!
Verification development for `pyEPR/project_info.py` (class `ProjectInfo`).

The Python class is a session handle onto a remote Ansys application.  We
embed it shallowly: the remote application is modelled by an `AnsysEnv`
record holding the remote name tables and lookup functions, the mutable
`ProjectInfo` object by an explicit `ProjectInfoState` record, and each
method by a pure function that takes the environment and the state and
returns its result, the updated state, and the trace of remote calls it
issued.  A Python exception is an explicit `PyExc` value carrying a message
and the traceback context it propagates.
-/

namespace PyEPR

/-- A Python exception as observed by a caller: its message and the
traceback (execution context) it carries. -/
structure PyExc where
  message : String
  traceback : String
deriving DecidableEq, Repr

/-- Remote setup handle: the model only uses its `name` field. -/
structure SetupHandle where
  name : String
deriving DecidableEq, Repr

/-- Remote project handle: `name` and the path returned by `get_path()`. -/
structure ProjectHandle where
  name : String
  path : String
deriving DecidableEq, Repr

/-- Remote design handle.  Besides `name` and `solution_type` it carries the
design-level remote operations used by `connect`/`get_setup`:
`get_setup_names()` (the current setup enumeration), the names of the setups
that `create_em_setup()` / `create_dm_setup()` would create, and the
`get_setup(name)` lookup (`none` models a lookup that returns no object;
the lookup argument is an `Option` because the Python code can pass
`self.setup_name` while it is still `None`). -/
structure DesignHandle where
  name : String
  solution_type : String
  setupNames : List String
  emSetupName : String
  dmSetupName : String
  getSetup : Option String → Option SetupHandle

/-- One remote call issued against the Ansys application, for call traces. -/
inductive AnsysCall where
  | loadProject
  | getActiveDesign
  | getDesign (name : String)
  | getSetupNames
  | createEmSetup
  | createDmSetup
  | getSetup (name : Option String)
  | getProjectVariableNames
  | getDesignVariableNames
  | getObjectsInGroup (category : String)
deriving DecidableEq, Repr

/-- The remote Ansys application as seen through the calls
`project_info.py` makes: `ansys.load_ansys_project` (modelled by the
project handle it yields), the design lookups on the project, and the
project/design variable tables and modeler object-group table read by the
validation helpers. -/
structure AnsysEnv where
  loadProject : ProjectHandle
  getActiveDesign : Except PyExc DesignHandle
  getDesign : String → Except PyExc DesignHandle
  projectVariableNames : List String
  designVariableNames : List String
  objectsInGroup : String → List String

/-- A junction record (`self.junctions[name]`), restricted to the fields
`validate_junction_info` reads.  The source record also carries a numeric
`length` and an optional `Cj_variable`; neither is read by any modelled
operation, so they are omitted. -/
structure JunctionRecord where
  Lj_variable : String
  rect : String
  line : String
deriving DecidableEq, Repr

/-- The mutable state of a `ProjectInfo` object: the identifying strings,
the junctions mapping (insertion-ordered association list), and the five
remote handles, each `none` until bound.  `app` and `desktop` are opaque
handles, so presence is all we model. -/
structure ProjectInfoState where
  project_path : Option String
  project_name : Option String
  design_name : Option String
  setup_name : Option String
  junctions : List (String × JunctionRecord)
  app : Option Unit
  desktop : Option Unit
  project : Option ProjectHandle
  design : Option DesignHandle
  setup : Option SetupHandle

/-- `ProjectInfo.check_connected`: true iff setup, design, project, desktop
and app are all bound, tested in that order. -/
def check_connected (s : ProjectInfoState) : Bool :=
  s.setup.isSome && s.design.isSome && s.project.isSome &&
    s.desktop.isSome && s.app.isSome

/-- `check_connected` as a method call on the state: it returns the boolean
and leaves the state as it was (the Python method only reads fields). -/
def check_connected_run (s : ProjectInfoState) : Bool × ProjectInfoState :=
  (check_connected s, s)

/-- The message of the `AssertionError` raised by `disconnect` when not
connected (emoji elided). -/
def disconnectAssertMsg : String :=
  "It does not appear that you have connected to HFSS yet.            Use the connect()  method."

/-- One release call issued by `disconnect`, in trace order. -/
inductive ReleaseCall where
  | project
  | desktop
  | app
  | ansysRelease
deriving DecidableEq, Repr

/-- `ProjectInfo.disconnect`: asserts `check_connected() is True` (an
`AssertionError` and no release when the assertion fails), then releases
project, desktop, app, and finally calls the module-wide `ansys.release()`. -/
def disconnect (s : ProjectInfoState) : Option PyExc × List ReleaseCall :=
  if check_connected s = true then
    (none, [ReleaseCall.project, ReleaseCall.desktop, ReleaseCall.app,
            ReleaseCall.ansysRelease])
  else
    (some ⟨disconnectAssertMsg, "disconnect"⟩, [])

/-- The AttributeError raised when `get_setup` dereferences `.name` on a
`None` setup (the remote lookup returned nothing). -/
def setupNoneAttributeError : PyExc :=
  ⟨"AttributeError: NoneType object has no attribute name", "get_setup"⟩

/-- The AttributeError raised when `get_setup` is reached with no design
bound (`self.design` is `None`). -/
def designNoneAttributeError : PyExc :=
  ⟨"AttributeError: NoneType object has no attribute get_setup", "get_setup"⟩

/-- `ProjectInfo.get_setup(name)`.  Returns `None` immediately when `name`
is `None`; otherwise performs `self.setup = self.design.get_setup(name=self.setup_name)`
(note: the lookup key is the stored `setup_name`, not the argument), raises
an AttributeError if the lookup yields nothing, else refreshes `setup_name`
from the fetched object and returns it.  Result: (exception if raised,
returned value, state after, remote calls issued). -/
def get_setup (s : ProjectInfoState) (name : Option String) :
    Option PyExc × Option SetupHandle × ProjectInfoState × List AnsysCall :=
  match name with
  | none => (none, none, s, [])
  | some _ =>
    match s.design with
    | none => (some designNoneAttributeError, none, s, [])
    | some d =>
      match d.getSetup s.setup_name with
      | none =>
        (some setupNoneAttributeError, none, { s with setup := none },
         [AnsysCall.getSetup s.setup_name])
      | some st =>
        (none, some st,
         { s with setup := some st, setup_name := some st.name },
         [AnsysCall.getSetup s.setup_name])

/-- Message of the exception `connect` raises when the design lookup by
name fails (Python line-continuation whitespace kept, emoji elided). -/
def designWrapMsg : String :=
  " Did you provide the correct design name?                    Failed to pull up design."

/-- Message of the exception `connect` raises when the setup block fails. -/
def setupWrapMsg : String :=
  " Did you provide the correct setup name?                        Failed to pull up setup."

/-- Tail of `connect`: the `get_setup(self.setup_name)` call inside the
`try`, whose failure is wrapped with `setupWrapMsg` and the original
traceback, followed by the finalize step that refreshes `project_name` and
`design_name` from the live handles. -/
def connectGetSetup (proj : ProjectHandle) (d : DesignHandle)
    (s : ProjectInfoState) (calls : List AnsysCall) :
    Option PyExc × ProjectInfoState × List AnsysCall :=
  match get_setup s s.setup_name with
  | (some e, _, s2, calls2) =>
    (some ⟨setupWrapMsg, e.traceback⟩, s2, calls ++ calls2)
  | (none, _, s2, calls2) =>
    (none,
     { s2 with project_name := some proj.name, design_name := some d.name },
     calls ++ calls2)

/-- Setup-resolution block of `connect`: enumerate `get_setup_names()`; if
empty, create a default setup for solution type `Eigenmode` or
`DrivenModal` (any other type creates nothing and leaves `setup_name`
untouched); if non-empty, take the first name; then run
`get_setup(self.setup_name)`. -/
def connectSetup (proj : ProjectHandle) (d : DesignHandle)
    (s : ProjectInfoState) (calls : List AnsysCall) :
    Option PyExc × ProjectInfoState × List AnsysCall :=
  match d.setupNames with
  | [] =>
    if d.solution_type = "Eigenmode" then
      connectGetSetup proj d { s with setup_name := some d.emSetupName }
        (calls ++ [AnsysCall.getSetupNames, AnsysCall.createEmSetup])
    else if d.solution_type = "DrivenModal" then
      connectGetSetup proj d { s with setup_name := some d.dmSetupName }
        (calls ++ [AnsysCall.getSetupNames, AnsysCall.createDmSetup])
    else
      connectGetSetup proj d s (calls ++ [AnsysCall.getSetupNames])
  | n :: _ =>
    connectGetSetup proj d { s with setup_name := some n }
      (calls ++ [AnsysCall.getSetupNames])

/-- `ProjectInfo.connect`: binds app/desktop/project from
`ansys.load_ansys_project`, refreshes `project_name`/`project_path`, then
resolves the design — the active one when `design_name` is `None` (a
failure there propagates unwrapped), else a lookup by name whose failure is
re-raised as `designWrapMsg` with the original traceback — and finally runs
the setup block.  Returns (exception if raised, state after, call trace). -/
def connect (env : AnsysEnv) (s : ProjectInfoState) :
    Option PyExc × ProjectInfoState × List AnsysCall :=
  let proj := env.loadProject
  let s1 : ProjectInfoState :=
    { s with app := some (), desktop := some (), project := some proj,
             project_name := some proj.name, project_path := some proj.path }
  match s.design_name with
  | none =>
    match env.getActiveDesign with
    | .error e => (some e, s1, [AnsysCall.loadProject, AnsysCall.getActiveDesign])
    | .ok d =>
      connectSetup proj d
        { s1 with design := some d, design_name := some d.name }
        [AnsysCall.loadProject, AnsysCall.getActiveDesign]
  | some n =>
    match env.getDesign n with
    | .error e =>
      (some ⟨designWrapMsg, e.traceback⟩, s1,
       [AnsysCall.loadProject, AnsysCall.getDesign n])
    | .ok d =>
      connectSetup proj d { s1 with design := some d }
        [AnsysCall.loadProject, AnsysCall.getDesign n]

/-- `ProjectInfo.get_all_variables_names`:
`project.get_variable_names() + design.get_variable_names()`. -/
def get_all_variables_names (env : AnsysEnv) : List String :=
  env.projectVariableNames ++ env.designVariableNames

/-- Remote calls issued by `get_all_variables_names`. -/
def get_all_variables_names_calls : List AnsysCall :=
  [AnsysCall.getProjectVariableNames, AnsysCall.getDesignVariableNames]

/-- The fixed category list iterated by `get_all_object_names`. -/
def objectCategories : List String :=
  ["Non Model", "Solids", "Unclassified", "Sheets", "Lines"]

/-- `ProjectInfo.get_all_object_names`: starts from the empty list and
appends, for each category in `objectCategories`, the objects the modeler
reports in that group. -/
def get_all_object_names (env : AnsysEnv) : List String :=
  objectCategories.foldl (fun acc c => acc ++ env.objectsInGroup c) []

/-- Remote calls issued by `get_all_object_names`. -/
def get_all_object_names_calls : List AnsysCall :=
  objectCategories.map AnsysCall.getObjectsInGroup

/-- The assertion failure raised by `validate_junction_info`: it names the
offending junction, the offending field and the offending value. -/
structure UserError where
  junction : String
  field : String
  value : String
deriving DecidableEq, Repr

/-- The per-junction body of the validation loop: assert
`jj[Lj_variable] in all_variables_names`, then for each of `rect`, `line`
in that order assert `jj[name] in all_object_names`; the first failing
assertion raises. -/
def checkJunction (vars objs : List String) (jjnm : String)
    (jj : JunctionRecord) : Except UserError Unit :=
  if jj.Lj_variable ∈ vars then
    if jj.rect ∈ objs then
      if jj.line ∈ objs then .ok ()
      else .error ⟨jjnm, "line", jj.line⟩
    else .error ⟨jjnm, "rect", jj.rect⟩
  else .error ⟨jjnm, "Lj_variable", jj.Lj_variable⟩

/-- The validation loop over the junctions mapping in insertion order;
stops at the first assertion failure. -/
def validateJunctions (vars objs : List String) :
    List (String × JunctionRecord) → Except UserError Unit
  | [] => .ok ()
  | (jjnm, jj) :: rest =>
    match checkJunction vars objs jjnm jj with
    | .error e => .error e
    | .ok () => validateJunctions vars objs rest

/-- `ProjectInfo.validate_junction_info`: enumerates all variable names and
all object names (the two remote enumerations run unconditionally, before
the loop), then runs the assertion loop over `self.junctions`. -/
def validate_junction_info (env : AnsysEnv) (s : ProjectInfoState) :
    Except UserError Unit × List AnsysCall :=
  (validateJunctions (get_all_variables_names env) (get_all_object_names env)
     s.junctions,
   get_all_variables_names_calls ++ get_all_object_names_calls)

/-- `ProjectInfo._Forbidden`, the save-time exclusion list. -/
def _Forbidden : List String :=
  ["app", "design", "desktop", "project", "dissipative", "setup",
   "_Forbidden", "junctions"]

/-- The instance-attribute names a `ProjectInfo` object has after
`__init__`. -/
def projectInfoInstanceVarNames : List String :=
  ["project_path", "project_name", "design_name", "setup_name", "junctions",
   "ports", "dissipative", "options", "app", "desktop", "project", "design",
   "setup"]

/-- Modelled from the spec: `get_instance_vars` (imported from
`pyEPR.toolbox.pythonic`, which is not part of the sources here) returns
the plain instance attributes of an object excluding a given forbidden
list; here at the level of attribute names. -/
def get_instance_vars_names (attrs forbidden : List String) : List String :=
  attrs.filter (fun a => a ∉ forbidden)

/-- Attribute names appearing in the `pinfo` scalar block of
`ProjectInfo.save()`: all instance attributes minus `_Forbidden`. -/
def save_pinfo_keys : List String :=
  get_instance_vars_names projectInfoInstanceVarNames _Forbidden

/-- The five labeled blocks of the snapshot `ProjectInfo.save()` returns. -/
def save_block_keys : List String :=
  ["pinfo", "dissip", "options", "junctions", "ports"]

/-- The state `connect` reaches right after the `load_ansys_project`
step: app, desktop and project bound, `project_name`/`project_path`
refreshed from the live project. -/
def initStateLike (s : ProjectInfoState) (env : AnsysEnv) :
    ProjectInfoState :=
  { s with app := some (), desktop := some (),
           project := some env.loadProject,
           project_name := some env.loadProject.name,
           project_path := some env.loadProject.path }

/-! Concrete sample data used to exercise the definitions. -/

/-- A fresh state as `__init__` leaves it (before any connect), with the
given identifying strings. -/
def initState (pp pn dn sn : Option String) : ProjectInfoState :=
  { project_path := pp, project_name := pn, design_name := dn,
    setup_name := sn, junctions := [], app := none, desktop := none,
    project := none, design := none, setup := none }

/-- Sample remote project handle. -/
def projEx : ProjectHandle := ⟨"Project1", "C:/work"⟩

/-- Sample eigenmode design with no setups yet; its `get_setup` lookup
resolves exactly the name "Setup1". -/
def designEx : DesignHandle :=
  { name := "HfssDesign1", solution_type := "Eigenmode", setupNames := [],
    emSetupName := "Setup1", dmSetupName := "Setup2",
    getSetup := fun n => if n = some "Setup1" then some ⟨"Setup1"⟩ else none }

/-- Sample design that already has setups. -/
def designEx2 : DesignHandle :=
  { name := "HfssDesign2", solution_type := "Eigenmode",
    setupNames := ["SetupA", "SetupB"],
    emSetupName := "Setup1", dmSetupName := "Setup2",
    getSetup := fun n => if n = some "SetupA" then some ⟨"SetupA"⟩ else none }

/-- Sample environment: the active design is `designEx`, only the name
"HfssDesign1" resolves by lookup, and the variable/object tables hold a
few names ("R1" sits in both the Solids and the Sheets group). -/
def envEx : AnsysEnv :=
  { loadProject := projEx,
    getActiveDesign := .ok designEx,
    getDesign := fun n =>
      if n = "HfssDesign1" then .ok designEx
      else .error ⟨"COMError: design not found", "tb0"⟩,
    projectVariableNames := ["Lj_1"],
    designVariableNames := ["Cj_1"],
    objectsInGroup := fun c =>
      if c = "Solids" then ["R1"]
      else if c = "Sheets" then ["R1", "jj_rect_1"]
      else if c = "Lines" then ["jj_line_1"]
      else [] }

/-- Environment whose `get_active_design` call fails. -/
def envExActiveFail : AnsysEnv :=
  { envEx with getActiveDesign := .error ⟨"COMError: no active design", "tb1"⟩ }

/-- Environment with `designEx2` (existing setups) as the active design. -/
def envExSetups : AnsysEnv := { envEx with getActiveDesign := .ok designEx2 }

/-- A connected-looking state used to exercise `get_setup`: design bound,
`setup_name` recorded as "Setup1". -/
def connectedStateEx : ProjectInfoState :=
  { project_path := some "C:/work", project_name := some "Project1",
    design_name := some "HfssDesign1", setup_name := some "Setup1",
    junctions := [], app := some (), desktop := some (),
    project := some projEx, design := some designEx, setup := none }

/-- The property a junction record must satisfy for validation to pass. -/
def junctionOK (vars objs : List String) (jj : JunctionRecord) : Prop :=
  jj.Lj_variable ∈ vars ∧ jj.rect ∈ objs ∧ jj.line ∈ objs

instance (vars objs : List String) (jj : JunctionRecord) :
    Decidable (junctionOK vars objs jj) := by
  unfold junctionOK; infer_instance

/-- What the error raised on a junction says about that junction: it is the
first failing assertion among `Lj_variable`, then `rect`, then `line`, and
it carries the offending value. -/
def junctionFirstBadField (vars objs : List String) (jj : JunctionRecord)
    (e : UserError) : Prop :=
  (e.field = "Lj_variable" ∧ e.value = jj.Lj_variable ∧
     jj.Lj_variable ∉ vars) ∨
  (e.field = "rect" ∧ e.value = jj.rect ∧ jj.Lj_variable ∈ vars ∧
     jj.rect ∉ objs) ∨
  (e.field = "line" ∧ e.value = jj.line ∧ jj.Lj_variable ∈ vars ∧
     jj.rect ∈ objs ∧ jj.line ∉ objs)

/-- The condition under which `connect` has resolved `self.design` to `d`:
either no design name was given and `d` is the active design, or the given
name looked `d` up successfully. -/
def designResolved (env : AnsysEnv) (s : ProjectInfoState)
    (d : DesignHandle) : Prop :=
  (s.design_name = none ∧ env.getActiveDesign = .ok d) ∨
  (∃ n, s.design_name = some n ∧ env.getDesign n = .ok d)

/-! Theorems. -/

/-- The per-junction check passes exactly when the three remembered fields
resolve. -/
theorem checkJunction_ok_iff (vars objs : List String) (jjnm : String)
    (jj : JunctionRecord) :
    checkJunction vars objs jjnm jj = .ok () ↔ junctionOK vars objs jj := by
  unfold checkJunction junctionOK
  split_ifs with h1 h2 h3 <;> simp_all

/-- A failing per-junction check names that junction and its first bad
field. -/
theorem checkJunction_error_elim (vars objs : List String) (jjnm : String)
    (jj : JunctionRecord) (e : UserError)
    (h : checkJunction vars objs jjnm jj = .error e) :
    e.junction = jjnm ∧ junctionFirstBadField vars objs jj e := by
  unfold checkJunction at h
  unfold junctionFirstBadField
  split_ifs at h with h1 h2 h3
  · injection h with h; subst h
    exact ⟨rfl, Or.inr (Or.inr ⟨rfl, rfl, h1, h2, h3⟩)⟩
  · injection h with h; subst h
    exact ⟨rfl, Or.inr (Or.inl ⟨rfl, rfl, h1, h2⟩)⟩
  · injection h with h; subst h
    exact ⟨rfl, Or.inl ⟨rfl, rfl, h1⟩⟩

/-- The validation loop succeeds exactly when every junction record is
valid. -/
theorem validateJunctions_ok_iff (vars objs : List String)
    (l : List (String × JunctionRecord)) :
    validateJunctions vars objs l = .ok () ↔
      ∀ p ∈ l, junctionOK vars objs p.2 := by
  induction l with
  | nil => simp [validateJunctions]
  | cons hd tl ih =>
    obtain ⟨nm, jj⟩ := hd
    rw [validateJunctions]
    cases hc : checkJunction vars objs nm jj with
    | error e =>
      simp only [List.mem_cons]
      constructor
      · intro h; cases h
      · intro h
        have := ((checkJunction_ok_iff vars objs nm jj).2
          (h (nm, jj) (Or.inl rfl)))
        rw [hc] at this; cases this
    | ok u =>
      cases u
      rw [ih]
      constructor
      · intro h p hp
        rcases List.mem_cons.1 hp with h1 | h1
        · subst h1; exact (checkJunction_ok_iff vars objs nm jj).1 hc
        · exact h p h1
      · intro h p hp; exact h p (List.mem_cons_of_mem _ hp)

/-- A failing validation run decomposes the junction list around the
offending junction: every earlier junction is fully valid and the error
names the offending junction and its first bad field. -/
theorem validateJunctions_error_elim (vars objs : List String)
    (l : List (String × JunctionRecord)) (e : UserError)
    (h : validateJunctions vars objs l = .error e) :
    ∃ pre jj post, l = pre ++ (e.junction, jj) :: post ∧
      (∀ p ∈ pre, junctionOK vars objs p.2) ∧
      junctionFirstBadField vars objs jj e := by
  induction l with
  | nil => cases h
  | cons hd tl ih =>
    obtain ⟨nm, jj⟩ := hd
    rw [validateJunctions] at h
    cases hc : checkJunction vars objs nm jj with
    | error e2 =>
      rw [hc] at h
      injection h with h
      subst h
      obtain ⟨hnm, hbad⟩ := checkJunction_error_elim vars objs nm jj e2 hc
      exact ⟨[], jj, tl, by simp [hnm], by simp, hbad⟩
    | ok u =>
      cases u
      rw [hc] at h
      obtain ⟨pre, jj2, post, hl, hpre, hbad⟩ := ih h
      refine ⟨(nm, jj) :: pre, jj2, post, by rw [hl]; rfl, ?_, hbad⟩
      intro p hp
      rcases List.mem_cons.1 hp with h1 | h1
      · subst h1; exact (checkJunction_ok_iff vars objs nm jj).1 hc
      · exact hpre p h1

/-- Claim C2: `check_connected()` returns true iff all five handles —
setup, design, project, desktop and app — are non-null (so it is false as
soon as any one of them is unset), and the call leaves the state
unchanged. -/
theorem check_connected_iff_all_bound (s : ProjectInfoState) :
    ((check_connected_run s).2 = s) ∧
    ((check_connected_run s).1 = true ↔
      s.setup ≠ none ∧ s.design ≠ none ∧ s.project ≠ none ∧
      s.desktop ≠ none ∧ s.app ≠ none) := by
  refine ⟨rfl, ?_⟩
  simp [check_connected_run, check_connected, Bool.and_eq_true,
    Option.isSome_iff_ne_none, and_assoc]

/-- Claim C5: `disconnect()` asserts `check_connected()`; when the
assertion fails it raises and performs no release, and under the
precondition it releases project, then desktop, then app, then makes the
one module-wide `ansys.release()` call, in that order. -/
theorem disconnect_assert_and_release_order (s : ProjectInfoState) :
    (check_connected s = false →
      disconnect s = (some ⟨disconnectAssertMsg, "disconnect"⟩, [])) ∧
    (check_connected s = true →
      disconnect s =
        (none, [ReleaseCall.project, ReleaseCall.desktop, ReleaseCall.app,
                ReleaseCall.ansysRelease])) := by
  constructor <;> intro h <;> simp [disconnect, h]

/-- Claim C6: `get_all_object_names()` is the concatenation, in the fixed
category order Non Model, Solids, Unclassified, Sheets, Lines, of the
group listings, with no deduplication: every name occurs as many times as
the five listings report it in total. -/
theorem get_all_object_names_concat_no_dedup (env : AnsysEnv) :
    (get_all_object_names env =
       env.objectsInGroup "Non Model" ++ env.objectsInGroup "Solids" ++
       env.objectsInGroup "Unclassified" ++ env.objectsInGroup "Sheets" ++
       env.objectsInGroup "Lines") ∧
    (∀ x : String,
       (get_all_object_names env).count x =
         (env.objectsInGroup "Non Model").count x +
         (env.objectsInGroup "Solids").count x +
         (env.objectsInGroup "Unclassified").count x +
         (env.objectsInGroup "Sheets").count x +
         (env.objectsInGroup "Lines").count x) := by
  have h : get_all_object_names env =
      env.objectsInGroup "Non Model" ++ env.objectsInGroup "Solids" ++
      env.objectsInGroup "Unclassified" ++ env.objectsInGroup "Sheets" ++
      env.objectsInGroup "Lines" := rfl
  exact ⟨h, fun x => by rw [h]; simp [List.count_append]; omega⟩

/-- Claim C7, counterexample: on a concrete connected state, calling
`get_setup` with the empty-string name is not a no-op — the code tests
`name is None` only, so the empty string reaches the lookup branch: a
remote `get_setup` call is issued, a setup is returned (not nothing), and
the state's `setup` field changes from `none` to a bound handle. -/
theorem get_setup_empty_string_not_noop :
    (get_setup connectedStateEx (some "")).2.2.2 =
      [AnsysCall.getSetup (some "Setup1")] ∧
    (get_setup connectedStateEx (some "")).2.2.2 ≠ [] ∧
    (get_setup connectedStateEx (some "")).2.1 = some ⟨"Setup1"⟩ ∧
    (get_setup connectedStateEx (some "")).2.2.1.setup = some ⟨"Setup1"⟩ ∧
    connectedStateEx.setup = none := by
  have h1 : (get_setup connectedStateEx (some "")).2.2.2 =
      [AnsysCall.getSetup (some "Setup1")] := rfl
  refine ⟨h1, ?_, rfl, rfl, rfl⟩
  rw [h1]
  simp

/-- Claim C7, amended: for a `None` name argument, `get_setup` returns
nothing, raises nothing, leaves the state unchanged and performs no remote
call. -/
theorem get_setup_none_name_noop (s : ProjectInfoState) :
    get_setup s none = (none, none, s, []) := rfl

/-- Claim C1: `validate_junction_info()` succeeds iff every junction's
`Lj_variable` is in the concatenated project-and-design variable list and
its `rect` and `line` are in the concatenated five-category object list;
when it fails, it raises on the first violating (junction, field) pair in
insertion order — the error names that junction, that field and the
offending value, all earlier junctions are fully valid, and the earlier
fields of the offending junction pass. -/
theorem validate_junction_info_iff_and_first_violation (env : AnsysEnv)
    (s : ProjectInfoState) :
    ((validate_junction_info env s).1 = .ok () ↔
       ∀ p ∈ s.junctions,
         junctionOK (get_all_variables_names env)
           (get_all_object_names env) p.2) ∧
    (∀ e, (validate_junction_info env s).1 = .error e →
       ∃ pre jj post,
         s.junctions = pre ++ (e.junction, jj) :: post ∧
         (∀ p ∈ pre,
            junctionOK (get_all_variables_names env)
              (get_all_object_names env) p.2) ∧
         junctionFirstBadField (get_all_variables_names env)
           (get_all_object_names env) jj e) := by
  constructor
  · exact validateJunctions_ok_iff (get_all_variables_names env)
      (get_all_object_names env) s.junctions
  · intro e he
    exact validateJunctions_error_elim (get_all_variables_names env)
      (get_all_object_names env) s.junctions e he

/-- Claim C10: with an empty junctions mapping, `validate_junction_info()`
returns without raising whatever the remote variable and object tables
hold, and it still issues the two enumerations (the variable-name reads
and the five object-group reads). -/
theorem validate_junction_info_empty_junctions (env : AnsysEnv)
    (s : ProjectInfoState) (h : s.junctions = []) :
    (validate_junction_info env s).1 = .ok () ∧
    (validate_junction_info env s).2 =
      [AnsysCall.getProjectVariableNames, AnsysCall.getDesignVariableNames,
       AnsysCall.getObjectsInGroup "Non Model",
       AnsysCall.getObjectsInGroup "Solids",
       AnsysCall.getObjectsInGroup "Unclassified",
       AnsysCall.getObjectsInGroup "Sheets",
       AnsysCall.getObjectsInGroup "Lines"] := by
  constructor
  · simp [validate_junction_info, h, validateJunctions]
  · rfl

/-- Witness for C10 at a concrete environment and a fresh state. -/
theorem validate_junction_info_empty_junctions_witness :
    (validate_junction_info envEx (initState none none none none)).1 =
      .ok () ∧
    (validate_junction_info envEx (initState none none none none)).2 =
      [AnsysCall.getProjectVariableNames, AnsysCall.getDesignVariableNames,
       AnsysCall.getObjectsInGroup "Non Model",
       AnsysCall.getObjectsInGroup "Solids",
       AnsysCall.getObjectsInGroup "Unclassified",
       AnsysCall.getObjectsInGroup "Sheets",
       AnsysCall.getObjectsInGroup "Lines"] :=
  validate_junction_info_empty_junctions envEx
    (initState none none none none) rfl

/-- Setup block of `connect` with the design bound: an empty setup
enumeration on an Eigenmode design creates one eigenmode setup, records
its name, and binds it via `get_setup`. -/
theorem connectSetup_em_eigenmode (proj : ProjectHandle) (d : DesignHandle)
    (s : ProjectInfoState) (calls : List AnsysCall)
    (hdes : s.design = some d) (hempty : d.setupNames = [])
    (hsol : d.solution_type = "Eigenmode")
    (hlookup : d.getSetup (some d.emSetupName) = some ⟨d.emSetupName⟩) :
    (connectSetup proj d s calls).1 = none ∧
    (connectSetup proj d s calls).2.1.setup_name = some d.emSetupName ∧
    (connectSetup proj d s calls).2.2 =
      calls ++ [AnsysCall.getSetupNames, AnsysCall.createEmSetup,
                AnsysCall.getSetup (some d.emSetupName)] := by
  simp [connectSetup, hempty, hsol, connectGetSetup, get_setup, hdes,
    hlookup]

/-- Setup block of `connect` with the design bound: a non-empty setup
enumeration selects the first name and creates nothing. -/
theorem connectSetup_existing (proj : ProjectHandle) (d : DesignHandle)
    (s : ProjectInfoState) (calls : List AnsysCall) (n : String)
    (rest : List String) (hdes : s.design = some d)
    (hnames : d.setupNames = n :: rest)
    (hlookup : d.getSetup (some n) = some ⟨n⟩) :
    (connectSetup proj d s calls).1 = none ∧
    (connectSetup proj d s calls).2.1.setup_name = some n ∧
    (connectSetup proj d s calls).2.2 =
      calls ++ [AnsysCall.getSetupNames, AnsysCall.getSetup (some n)] := by
  simp [connectSetup, hnames, connectGetSetup, get_setup, hdes, hlookup]

/-- Claim C3: once `connect()` has resolved its design, if the design's
setup enumeration is empty and its solution type is "Eigenmode" (with a
well-behaved remote `get_setup` lookup), connect issues exactly one
`create_em_setup` call and records the created setup's name as
`setup_name`; if instead setups exist, `setup_name` becomes the first name
in the remote enumeration order and nothing is created. -/
theorem connect_setup_resolution (env : AnsysEnv) (s : ProjectInfoState)
    (d : DesignHandle) (hres : designResolved env s d) :
    (d.setupNames = [] → d.solution_type = "Eigenmode" →
      d.getSetup (some d.emSetupName) = some ⟨d.emSetupName⟩ →
      (connect env s).1 = none ∧
      (connect env s).2.1.setup_name = some d.emSetupName ∧
      (connect env s).2.2.count AnsysCall.createEmSetup = 1) ∧
    (∀ n rest, d.setupNames = n :: rest →
      d.getSetup (some n) = some ⟨n⟩ →
      (connect env s).1 = none ∧
      (connect env s).2.1.setup_name = some n ∧
      (connect env s).2.2.count AnsysCall.createEmSetup = 0 ∧
      (connect env s).2.2.count AnsysCall.createDmSetup = 0) := by
  rcases hres with ⟨hdn, hact⟩ | ⟨n0, hdn, hget⟩
  · constructor
    · intro hempty hsol hlookup
      obtain ⟨ha, hb, hc⟩ :=
        connectSetup_em_eigenmode env.loadProject d
          { initStateLike s env with
            design := some d
            design_name := some d.name }
          [AnsysCall.loadProject, AnsysCall.getActiveDesign]
          rfl hempty hsol hlookup
      refine ⟨?_, ?_, ?_⟩ <;>
        simp [connect, hdn, hact, initStateLike] at ha hb hc ⊢ <;>
        simp [ha, hb, hc, List.count_cons]
    · intro n rest hnames hlookup
      obtain ⟨ha, hb, hc⟩ :=
        connectSetup_existing env.loadProject d
          { initStateLike s env with
            design := some d
            design_name := some d.name }
          [AnsysCall.loadProject, AnsysCall.getActiveDesign]
          n rest rfl hnames hlookup
      refine ⟨?_, ?_, ?_, ?_⟩ <;>
        simp [connect, hdn, hact, initStateLike] at ha hb hc ⊢ <;>
        simp [ha, hb, hc, List.count_cons]
  · constructor
    · intro hempty hsol hlookup
      obtain ⟨ha, hb, hc⟩ :=
        connectSetup_em_eigenmode env.loadProject d
          { initStateLike s env with design := some d }
          [AnsysCall.loadProject, AnsysCall.getDesign n0]
          rfl hempty hsol hlookup
      refine ⟨?_, ?_, ?_⟩ <;>
        simp [connect, hdn, hget, initStateLike] at ha hb hc ⊢ <;>
        simp [ha, hb, hc, List.count_cons]
    · intro n rest hnames hlookup
      obtain ⟨ha, hb, hc⟩ :=
        connectSetup_existing env.loadProject d
          { initStateLike s env with design := some d }
          [AnsysCall.loadProject, AnsysCall.getDesign n0]
          n rest rfl hnames hlookup
      refine ⟨?_, ?_, ?_, ?_⟩ <;>
        simp [connect, hdn, hget, initStateLike] at ha hb hc ⊢ <;>
        simp [ha, hb, hc, List.count_cons]

/-- Witness for C3: on `envEx` (active design `designEx`: no setups,
Eigenmode) connect succeeds, records the created "Setup1" and issues one
`create_em_setup` call. -/
theorem connect_setup_resolution_witness :
    (connect envEx (initState none none none none)).1 = none ∧
    (connect envEx (initState none none none none)).2.1.setup_name =
      some "Setup1" ∧
    (connect envEx (initState none none none none)).2.2.count
      AnsysCall.createEmSetup = 1 :=
  (connect_setup_resolution envEx (initState none none none none) designEx
      (Or.inl ⟨rfl, rfl⟩)).1 rfl rfl rfl

/-- Claim C4: when `connect()` is given a design name and the remote
lookup fails, the exception it raises asks about the design name (its
message contains "design name") and carries the original failure's
traceback — the underlying error is not swallowed. -/
theorem connect_bad_design_name (env : AnsysEnv) (s : ProjectInfoState)
    (n : String) (e : PyExc) (h1 : s.design_name = some n)
    (h2 : env.getDesign n = .error e) :
    ∃ exc, (connect env s).1 = some exc ∧
      (∃ pre post, exc.message = pre ++ "design name" ++ post) ∧
      exc.traceback = e.traceback := by
  refine ⟨⟨designWrapMsg, e.traceback⟩, ?_,
    ⟨" Did you provide the correct ",
     "?                    Failed to pull up design.", ?_⟩, rfl⟩
  · simp [connect, h1, h2]
  · rfl

/-- Witness for C4 at a concrete environment and design name. -/
theorem connect_bad_design_name_witness :
    ∃ exc,
      (connect envEx (initState none none (some "BadDesign") none)).1 =
        some exc ∧
      (∃ pre post, exc.message = pre ++ "design name" ++ post) ∧
      exc.traceback = "tb0" :=
  connect_bad_design_name envEx (initState none none (some "BadDesign") none)
    "BadDesign" ⟨"COMError: design not found", "tb0"⟩ rfl rfl

/-- Claim C8: when `connect()` runs with no design name and the
`get_active_design` call fails, the original exception propagates to the
caller unchanged — it is not wrapped in the "Did you provide the correct
design name?" re-raise of the named-lookup branch. -/
theorem connect_active_design_error_propagates (env : AnsysEnv)
    (s : ProjectInfoState) (e : PyExc) (h1 : s.design_name = none)
    (h2 : env.getActiveDesign = .error e) :
    (connect env s).1 = some e := by
  simp [connect, h1, h2]

/-- Witness for C8 at a concrete environment whose active-design lookup
fails. -/
theorem connect_active_design_error_propagates_witness :
    (connect envExActiveFail (initState none none none none)).1 =
      some ⟨"COMError: no active design", "tb1"⟩ :=
  connect_active_design_error_propagates envExActiveFail
    (initState none none none none) ⟨"COMError: no active design", "tb1"⟩
    rfl rfl

/-- Claim C9: the exclusion list `_Forbidden` does not contain "ports", so
the `pinfo` scalar block of `save()` carries the ports mapping as an
entry, even though `save()` also emits a dedicated "ports" block. -/
theorem save_pinfo_includes_ports :
    "ports" ∉ _Forbidden ∧ "ports" ∈ save_pinfo_keys ∧
      "ports" ∈ save_block_keys := by
  refine ⟨by decide, ?_, by decide⟩
  decide

end PyEPR
